import Mathlib

/-!
A shallow embedding of the session manager in `src/app.py`: a Flask-SocketIO
server that drives one `gamdl` child process per client session through a
pexpect pseudo-terminal.  The dictionary `child_processes` maps a session id
to its pexpect child; `read_gamdl_output` is the background thread that pumps
pty output to the client; `handle_disconnect`, `handle_start_download` and
`handle_send_input` are the Socket.IO event handlers.  Every `emit` in the
source addresses the room of exactly one session id, so messages are modelled
without an explicit recipient.  Liveness of the child (`isalive()`) and
exceptions raised by pexpect calls are environment inputs, so they appear as
parameters of the embedded functions.
-/

namespace App

/-- Socket.IO messages the server emits, each to the room of one session id. -/
inductive Msg
  | gamdl_output (data : String)
  | info_message (message : String)
  | error_message (error : String)
  | download_complete (message : String)
deriving DecidableEq, Repr

/-- Outcome of one `read_nonblocking` call as observed by the pump loop of
`read_gamdl_output`: data was returned, `pexpect.TIMEOUT` was raised (the
payload records what `child_process.isalive()` returned in that handler),
`pexpect.EOF` was raised, or some other exception was raised. -/
inductive ReadEvent
  | data (s : String)
  | timeout (alive : Bool)
  | eof
  | err (e : String)
deriving DecidableEq, Repr

/-- How the `while True` loop of `read_gamdl_output` was exited. -/
inductive LoopExit
  | exitedDead
  | exitedEof
  | exitedErr (e : String)
deriving DecidableEq, Repr

/-- Calls that the finalization path (the `finally` block of
`read_gamdl_output`) may make on the pexpect child.  The source only ever
calls `close()` there; `terminate` is listed because the specification talks
about a `terminate()` call in this place. -/
inductive FinCall
  | close
  | terminate
deriving DecidableEq, Repr

/-- Result of running `read_gamdl_output` (or of its `finally` block alone):
the messages emitted to the room of the session, the calls made on the child
in the `finally` block, whether the registry still holds an entry for the
session afterwards, and whether an exception escaped the function. -/
structure PumpResult where
  emitted : List Msg
  finCalls : List FinCall
  entryRemains : Bool
  raised : Bool
deriving DecidableEq, Repr

/-- The `while True` loop of `read_gamdl_output` (lines 34-58 of the source),
run over a trace of read outcomes.  On data the string is emitted as
`gamdl_output` when non-empty (the `if output_str:` guard); on timeout the
loop re-checks liveness and breaks with an info message when dead; on EOF it
breaks with an info message; on any other exception it breaks with an error
message.  A trace that is exhausted without a terminal outcome means the loop
is still running (second component `none`). -/
def pumpLoop (sid : String) : List ReadEvent → List Msg × Option LoopExit
  | [] => ([], none)
  | ReadEvent.data s :: rest =>
    if s = "" then pumpLoop sid rest
    else (Msg.gamdl_output s :: (pumpLoop sid rest).1, (pumpLoop sid rest).2)
  | ReadEvent.timeout alive :: rest =>
    if alive then pumpLoop sid rest
    else ([Msg.info_message ("gamdl process appears to have exited.")], some LoopExit.exitedDead)
  | ReadEvent.eof :: _ =>
    ([Msg.info_message ("gamdl process finished (EOF).")], some LoopExit.exitedEof)
  | ReadEvent.err e :: _ =>
    ([Msg.error_message ("Error reading gamdl output for SID " ++ sid ++ ": " ++ e)],
      some (LoopExit.exitedErr e))

/-- The data chunks actually read from the pty before the loop exits. -/
def chunksRead : List ReadEvent → List String
  | [] => []
  | ReadEvent.data s :: rest => s :: chunksRead rest
  | ReadEvent.timeout alive :: rest => if alive then chunksRead rest else []
  | ReadEvent.eof :: _ => []
  | ReadEvent.err _ :: _ => []

/-- The `finally` block of `read_gamdl_output` (lines 59-68 of the source):
if the child is still alive, `close()` it (a raised exception there escapes
the block, skipping the remaining statements); then delete the registry entry
for the session if present; then emit `download_complete`.  Inputs are what
`isalive()` returns at this point, whether `close()` raises, and whether the
registry currently holds an entry for the session. -/
def finalize (aliveAtFinal closeRaises hasEntry : Bool) : PumpResult :=
  if aliveAtFinal then
    if closeRaises then
      ⟨[], [FinCall.close], hasEntry, true⟩
    else
      ⟨[Msg.download_complete ("Download process and cleanup finished.")],
        [FinCall.close], false, false⟩
  else
    ⟨[Msg.download_complete ("Download process and cleanup finished.")], [], false, false⟩

/-- Whether the pump loop reached one of its terminal outcomes on this trace. -/
def loopExits (sid : String) (trace : List ReadEvent) : Bool :=
  (pumpLoop sid trace).2.isSome

/-- The whole body of `read_gamdl_output` (lines 27-69 of the source): the
loop followed, once the loop has exited, by the `finally` block.  When the
trace leaves the loop still running, the finalization has not happened yet
and the registry entry is untouched. -/
def read_gamdl_output (sid : String) (trace : List ReadEvent)
    (aliveAtFinal closeRaises hasEntry : Bool) : PumpResult :=
  if loopExits sid trace then
    ⟨(pumpLoop sid trace).1 ++ (finalize aliveAtFinal closeRaises hasEntry).emitted,
      (finalize aliveAtFinal closeRaises hasEntry).finCalls,
      (finalize aliveAtFinal closeRaises hasEntry).entryRemains,
      (finalize aliveAtFinal closeRaises hasEntry).raised⟩
  else
    ⟨(pumpLoop sid trace).1, [], hasEntry, false⟩

/-- Whether a message is a `download_complete` notification. -/
def isDownloadComplete : Msg → Bool
  | Msg.download_complete _ => true
  | _ => false

/-- Number of `download_complete` notifications in a list of messages. -/
def countDC (l : List Msg) : Nat :=
  l.countP isDownloadComplete

/-- The payloads of the `gamdl_output` messages in a list, in order. -/
def gamdlPayloads (l : List Msg) : List String :=
  l.filterMap fun m =>
    match m with
    | Msg.gamdl_output d => some d
    | _ => none

/-- A pexpect child as seen by a handler: an identifier for the OS process
and what `isalive()` returns at the moment the handler checks it. -/
structure Proc where
  pid : Nat
  alive : Bool
deriving DecidableEq, Repr

/-- Outcome of the `pexpect.spawn` call in `handle_start_download`: success,
a `pexpect.exceptions.ExceptionPexpect`, or any other exception. -/
inductive SpawnOutcome
  | ok (child : Proc)
  | pexpectErr (e : String)
  | otherErr (e : String)
deriving DecidableEq, Repr

/-- Result of `handle_start_download`: the registry entry for the session
afterwards, the messages emitted, whether a reader thread was started for a
newly spawned child, and the pids of any children the handler closed (the
source never closes one on this path, so this list records that no close
call site exists in `handle_start_download`). -/
structure StartResult where
  entry : Option Proc
  emitted : List Msg
  pumpStarted : Bool
  closedPids : List Nat
deriving DecidableEq, Repr

/-- The guard on line 100 of the source:
`sid in child_processes and child_processes[sid].isalive()`. -/
def entryGuard : Option Proc → Bool
  | some p => p.alive
  | none => false

/-- The `start_download` handler (lines 97-158 of the source), for one
session: reject when a live child is registered; reject when the url is
missing or empty (`if not apple_music_url:`); otherwise spawn.  On success
the child is stored in the registry (overwriting any stale entry) and a
reader thread is started; on failure an error carrying the exception text is
emitted and any registry entry for the session is deleted. -/
def handle_start_download (entry : Option Proc) (url : Option String)
    (spawn : SpawnOutcome) : StartResult :=
  if entryGuard entry then
    ⟨entry, [Msg.error_message ("A download process is already running for your session.")],
      false, []⟩
  else
    match url with
    | none =>
      ⟨entry, [Msg.error_message ("No Apple Music URL provided.")], false, []⟩
    | some u =>
      if u = "" then
        ⟨entry, [Msg.error_message ("No Apple Music URL provided.")], false, []⟩
      else
        match spawn with
        | SpawnOutcome.ok child =>
          ⟨some child,
            [Msg.info_message ("gamdl process started for " ++ u ++ ". Waiting for output...")],
            true, []⟩
        | SpawnOutcome.pexpectErr e =>
          ⟨none,
            [Msg.error_message ("Failed to start gamdl: " ++ e ++
              ". Ensure \x27gamdl\x27 is installed and in your system\x27s PATH.")],
            false, []⟩
        | SpawnOutcome.otherErr e =>
          ⟨none,
            [Msg.error_message ("An unexpected error occurred while trying to start gamdl: "
              ++ e)],
            false, []⟩

/-- The `send_input` handler (lines 160-184 of the source): a `None` payload
is ignored; with a registered live child the input is sent raw (`send`),
emitting an error message when the send raises; otherwise an info message
reports that the input was not delivered. -/
def handle_send_input (sid : String) (entry : Option Proc) (input : Option String)
    (sendErr : Option String) : List Msg :=
  match input with
  | none => []
  | some _ =>
    match entry with
    | some p =>
      if p.alive then
        match sendErr with
        | some e =>
          [Msg.error_message ("Error sending input to gamdl for SID " ++ sid ++ ": " ++ e)]
        | none => []
      else
        [Msg.info_message
          ("No active gamdl process for your session, or process has ended. Input not sent.")]
    | none =>
      [Msg.info_message
        ("No active gamdl process for your session, or process has ended. Input not sent.")]

/-- The escalation calls `handle_disconnect` can make on the child. -/
inductive TermStep
  | sendeof
  | sigterm
  | sigkill
deriving DecidableEq, Repr

/-- A pexpect child as seen by `handle_disconnect`.  `alive0` is what
`isalive()` returns at the guard on line 84, `alive1`/`alive2`/`alive3` at
the per-step checks on lines 88, 90 and 92; the `Raises` flags say whether
the corresponding call raises (any such exception is caught by the
surrounding `except`). -/
structure DiscProc where
  alive0 : Bool
  alive1 : Bool
  alive2 : Bool
  alive3 : Bool
  sendeofRaises : Bool
  sigtermRaises : Bool
  sigkillRaises : Bool
deriving DecidableEq, Repr

/-- Run guarded escalation steps in order: each step is attempted only when
its liveness guard holds, and a step that raises aborts the remaining steps
(the exception is caught by the handler). -/
def runGuardedSteps : List (Bool × TermStep × Bool) → List TermStep
  | [] => []
  | (guard, step, raises) :: rest =>
    if guard then
      if raises then [step]
      else step :: runGuardedSteps rest
    else runGuardedSteps rest

/-- The graduated termination attempted by `handle_disconnect` (lines 84-94
of the source): nothing when the child is already dead at the outer guard;
otherwise `sendeof()` then `terminate(force=False)` then
`terminate(force=True)`, each only when the child is still alive at its own
check. -/
def terminationSteps (p : DiscProc) : List TermStep :=
  if p.alive0 then
    runGuardedSteps
      [(p.alive1, TermStep.sendeof, p.sendeofRaises),
        (p.alive2, TermStep.sigterm, p.sigtermRaises),
        (p.alive3, TermStep.sigkill, p.sigkillRaises)]
  else []

/-- Observable actions of `handle_disconnect`, in program order. -/
inductive DiscEvent
  | regPop
  | step (s : TermStep)
deriving DecidableEq, Repr

/-- Result of `handle_disconnect`: the registry entry for the session
afterwards, the observable actions in program order, the messages emitted
(the handler emits none), and whether an exception escaped the handler. -/
structure DiscResult where
  entry : Option DiscProc
  events : List DiscEvent
  emitted : List Msg
  raised : Bool
deriving DecidableEq, Repr

/-- The `disconnect` handler (lines 79-95 of the source): pop the registry
entry first (`child_processes.pop(sid, None)`), then, when a live child was
registered, attempt the graduated termination inside a `try` whose `except`
swallows every exception. -/
def handle_disconnect (entry : Option DiscProc) : DiscResult :=
  match entry with
  | none => ⟨none, [DiscEvent.regPop], [], false⟩
  | some p =>
    ⟨none, DiscEvent.regPop :: (terminationSteps p).map DiscEvent.step, [], false⟩

/-- A spawned child in the whole-system model: its pid, whether the OS
process is alive, and whether the `finally` block of its reader thread has
completed (registry removal plus `download_complete`). -/
structure ProcState where
  pid : Nat
  alive : Bool
  pumpDone : Bool
deriving DecidableEq, Repr

/-- Whole-system state for one session: the registry entry (the pid stored
in `child_processes` for this session, if any), every child spawned so far,
and the next fresh pid. -/
structure Sys where
  entry : Option Nat
  procs : List ProcState
  nextPid : Nat
deriving DecidableEq, Repr

/-- Initial state: no entry, nothing spawned. -/
def initSys : Sys := ⟨none, [], 0⟩

/-- Look up a spawned child by pid. -/
def lookupProc (ps : List ProcState) (pid : Nat) : Option ProcState :=
  ps.find? fun p => p.pid == pid

/-- The registry guard of `handle_start_download` in the whole-system model:
an entry exists and its child is alive. -/
def entryAlive (s : Sys) : Bool :=
  match s.entry with
  | none => false
  | some pid =>
    match lookupProc s.procs pid with
    | none => false
    | some p => p.alive

/-- Events that drive the whole-system model, mirroring the code paths that
touch `child_processes`: a successful `start_download`, a `start_download`
whose spawn raises, the OS process dying, the reader thread of a child
running its `finally` block, and a client disconnect. -/
inductive Ev
  | startOk (url : String)
  | startFail (url : String)
  | procDies (pid : Nat)
  | pumpFinal (pid : Nat)
  | disconnect
deriving DecidableEq, Repr

/-- Mark the child with this pid as no longer alive. -/
def killPid (ps : List ProcState) (pid : Nat) : List ProcState :=
  ps.map fun p => if p.pid == pid then { p with alive := false } else p

/-- Mark the child with this pid as closed and fully cleaned up. -/
def markDone (ps : List ProcState) (pid : Nat) : List ProcState :=
  ps.map fun p =>
    if p.pid == pid then { p with alive := false, pumpDone := true } else p

/-- One step of the whole-system model.  `startOk`/`startFail` follow
`handle_start_download` (guard on line 100, spawn and registration on lines
132-139, deletion of the entry in the `except` blocks); `pumpFinal` follows
the `finally` block of `read_gamdl_output` (it deletes whatever entry the
session has); `disconnect` follows `handle_disconnect` (pop the entry, then
terminate the popped child). -/
def stepSys (s : Sys) : Ev → Sys
  | Ev.startOk url =>
    if entryAlive s then s
    else if url = "" then s
    else
      { entry := some s.nextPid,
        procs := s.procs ++ [⟨s.nextPid, true, false⟩],
        nextPid := s.nextPid + 1 }
  | Ev.startFail url =>
    if entryAlive s then s
    else if url = "" then s
    else { s with entry := none }
  | Ev.procDies pid => { s with procs := killPid s.procs pid }
  | Ev.pumpFinal pid =>
    match lookupProc s.procs pid with
    | none => s
    | some p =>
      if p.pumpDone then s
      else { s with entry := none, procs := markDone s.procs pid }
  | Ev.disconnect =>
    match s.entry with
    | none => s
    | some pid => { entry := none, procs := killPid s.procs pid, nextPid := s.nextPid }

/-- Run the whole-system model from the initial state. -/
def runSys (evs : List Ev) : Sys :=
  evs.foldl stepSys initSys

/-- The invariant claimed by the specification, as stated: the registry holds
an entry for the session exactly when some child was spawned for it whose
cleanup has not yet completed. -/
def registryIffUncleaned (s : Sys) : Bool :=
  s.entry.isSome == s.procs.any fun p => !p.pumpDone

/-- The direction of the invariant that the code does maintain: a registry
entry always points at a spawned child whose cleanup is still pending. -/
def entryFresh (s : Sys) : Prop :=
  ∀ pid, s.entry = some pid →
    ∃ p, p ∈ s.procs ∧ p.pid = pid ∧ p.pumpDone = false

/-! ### Helper lemmas -/

theorem countDC_append (a b : List Msg) : countDC (a ++ b) = countDC a + countDC b := by
  simp [countDC, List.countP_append]

theorem gamdlPayloads_append (a b : List Msg) :
    gamdlPayloads (a ++ b) = gamdlPayloads a ++ gamdlPayloads b := by
  simp [gamdlPayloads, List.filterMap_append]

theorem pumpLoop_countDC (sid : String) (trace : List ReadEvent) :
    countDC (pumpLoop sid trace).1 = 0 := by
  induction trace with
  | nil => rfl
  | cons ev rest ih =>
    cases ev with
    | data s =>
      simp only [pumpLoop]
      split
      · exact ih
      · simp only [countDC, List.countP_cons, isDownloadComplete]
        simpa [countDC] using ih
    | timeout alive =>
      cases alive with
      | true => simpa [pumpLoop] using ih
      | false => rfl
    | eof => rfl
    | err e => rfl

theorem finalize_countDC (a c h : Bool) (hc : (a && c) = false) :
    countDC (finalize a c h).emitted = 1 := by
  cases a with
  | false => rfl
  | true =>
    cases c with
    | false => rfl
    | true => simp at hc

theorem finalize_payloads (a c h : Bool) : gamdlPayloads (finalize a c h).emitted = [] := by
  cases a <;> cases c <;> rfl

theorem pumpLoop_payloads (sid : String) (trace : List ReadEvent)
    (h : ∀ s ∈ chunksRead trace, s ≠ "") :
    gamdlPayloads (pumpLoop sid trace).1 = chunksRead trace := by
  induction trace with
  | nil => rfl
  | cons ev rest ih =>
    cases ev with
    | data s =>
      have hs : s ≠ "" := h s (by simp [chunksRead])
      have hrest : ∀ x ∈ chunksRead rest, x ≠ "" := by
        intro x hx
        exact h x (by simp [chunksRead, hx])
      simp only [pumpLoop, chunksRead, if_neg hs]
      simp [gamdlPayloads, List.filterMap_cons] at ih ⊢
      exact ih hrest
    | timeout alive =>
      cases alive with
      | true =>
        have hrest : ∀ x ∈ chunksRead rest, x ≠ "" := by
          intro x hx
          exact h x (by simpa [chunksRead] using hx)
        simpa [pumpLoop, chunksRead] using ih hrest
      | false => rfl
    | eof => rfl
    | err e => rfl

theorem handle_start_download_no_dc (e : Option Proc) (u : Option String)
    (sp : SpawnOutcome) : countDC (handle_start_download e u sp).emitted = 0 := by
  unfold handle_start_download
  split
  · rfl
  · match u with
    | none => rfl
    | some s =>
      simp only []
      split
      · rfl
      · match sp with
        | SpawnOutcome.ok child => rfl
        | SpawnOutcome.pexpectErr e => rfl
        | SpawnOutcome.otherErr e => rfl

theorem handle_send_input_no_dc (sid : String) (e : Option Proc) (i se : Option String) :
    countDC (handle_send_input sid e i se) = 0 := by
  match i with
  | none => rfl
  | some s =>
    match e with
    | none => rfl
    | some p =>
      match hp : p.alive with
      | false => simp [handle_send_input, hp, countDC, isDownloadComplete]
      | true =>
        match se with
        | none => simp [handle_send_input, hp, countDC, isDownloadComplete]
        | some err => simp [handle_send_input, hp, countDC, isDownloadComplete]

theorem entryFresh_init : entryFresh initSys := by
  intro pid h
  simp [initSys] at h

theorem stepSys_entryFresh {s : Sys} (ev : Ev) (h : entryFresh s) :
    entryFresh (stepSys s ev) := by
  cases ev with
  | startOk url =>
    simp only [stepSys]
    split
    · exact h
    · split
      · exact h
      · intro pid hpid
        have hp : s.nextPid = pid := Option.some.inj hpid
        subst hp
        exact ⟨⟨s.nextPid, true, false⟩, by simp, rfl, rfl⟩
  | startFail url =>
    simp only [stepSys]
    split
    · exact h
    · split
      · exact h
      · intro pid hpid
        simp at hpid
  | procDies k =>
    intro pid hpid
    obtain ⟨p, hmem, hpid2, hdone⟩ := h pid hpid
    refine ⟨if p.pid == k then { p with alive := false } else p, ?_, ?_, ?_⟩
    · exact List.mem_map_of_mem _ hmem
    · split <;> exact hpid2
    · split <;> exact hdone
  | pumpFinal k =>
    simp only [stepSys]
    split
    · exact h
    · split
      · exact h
      · intro pid hpid
        simp at hpid
  | disconnect =>
    simp only [stepSys]
    split
    · exact h
    · intro pid hpid
      simp at hpid

theorem foldl_entryFresh (evs : List Ev) (s : Sys) (h : entryFresh s) :
    entryFresh (List.foldl stepSys s evs) := by
  induction evs generalizing s with
  | nil => exact h
  | cons ev rest ih => exact ih (stepSys s ev) (stepSys_entryFresh ev h)

/-! ### Claims -/

/-- C1: over one process lifetime, once its pump loop has exited (by
timeout-detected death, EOF or read error) the pump emits exactly one
`download_complete` to the room of the owning session, provided `close()`
does not raise, and no other code path (`handle_start_download`,
`handle_disconnect`, `handle_send_input`) ever emits a `download_complete`,
so racing termination triggers cannot add a second one. -/
theorem c1_exactly_one_download_complete
    (sid : String) (trace : List ReadEvent) (aliveAtFinal closeRaises hasEntry : Bool)
    (hterm : loopExits sid trace = true)
    (hclose : (aliveAtFinal && closeRaises) = false) :
    countDC (read_gamdl_output sid trace aliveAtFinal closeRaises hasEntry).emitted = 1
    ∧ (∀ (e : Option Proc) (u : Option String) (sp : SpawnOutcome),
        countDC (handle_start_download e u sp).emitted = 0)
    ∧ (∀ e : Option DiscProc, (handle_disconnect e).emitted = [])
    ∧ (∀ (sid2 : String) (e : Option Proc) (i se : Option String),
        countDC (handle_send_input sid2 e i se) = 0) := by
  refine ⟨?_, handle_start_download_no_dc, ?_, handle_send_input_no_dc⟩
  · simp only [read_gamdl_output, hterm, if_true]
    rw [countDC_append, pumpLoop_countDC, finalize_countDC _ _ _ hclose]
  · intro e
    cases e <;> rfl

/-- Witness for C1 at a concrete trace ending in timeout-detected death. -/
theorem c1_witness :
    countDC (read_gamdl_output ("s") [ReadEvent.timeout false] false false true).emitted
      = 1 :=
  (c1_exactly_one_download_complete ("s") [ReadEvent.timeout false] false false true
    rfl rfl).1

/-- C2: the code does not satisfy the claim.  When the pump loop exits (here
via EOF) with the child still alive and `close()` raises, the exception
escapes the `finally` block before the registry deletion and the
`download_complete` emission, so the entry stays in the registry and no
completion notification is delivered. -/
theorem c2_close_exception_blocks_finalization :
    (read_gamdl_output ("s") [ReadEvent.eof] true true true).entryRemains = true
    ∧ countDC (read_gamdl_output ("s") [ReadEvent.eof] true true true).emitted = 0
    ∧ (read_gamdl_output ("s") [ReadEvent.eof] true true true).raised = true :=
  ⟨rfl, rfl, rfl⟩

/-- C3 counterexample: after a successful start followed by a client
disconnect, the disconnect handler has popped the registry entry while the
spawned child has not yet completed cleanup (its pump finalization is still
pending), so the claimed if-and-only-if invariant is false in this reachable
state. -/
theorem c3_counterexample :
    registryIffUncleaned (runSys [Ev.startOk ("u"), Ev.disconnect]) = false := by
  decide

/-- C3 (amended): in every reachable state of the system model, a registry
entry for the session points at a child that was spawned and whose cleanup
has not yet completed; the converse direction of the claimed invariant does
not hold. -/
theorem c3_registry_implies_pending_cleanup (evs : List Ev) (pid : Nat)
    (h : (runSys evs).entry = some pid) :
    ∃ p, p ∈ (runSys evs).procs ∧ p.pid = pid ∧ p.pumpDone = false :=
  foldl_entryFresh evs initSys entryFresh_init pid h

/-- Witness for the amended C3 after one successful start. -/
theorem c3_witness :
    ∃ p, p ∈ (runSys [Ev.startOk ("u")]).procs ∧ p.pid = 0 ∧ p.pumpDone = false :=
  c3_registry_implies_pending_cleanup [Ev.startOk ("u")] 0 rfl

/-- C4 counterexample: at a concrete terminal run with the child still alive
at finalization, the finalization makes only a `close()` call and never calls
`terminate()`, so the claimed terminate-then-close sequence is false. -/
theorem c4_counterexample :
    (read_gamdl_output ("s") [ReadEvent.timeout false] true false true).finCalls
      = [FinCall.close]
    ∧ FinCall.terminate ∉
        (read_gamdl_output ("s") [ReadEvent.timeout false] true false true).finCalls := by
  refine ⟨rfl, by decide⟩

/-- C4 (amended): whenever the pump loop reaches any terminal state, one
single finalization runs which, if the child is still alive, calls `close()`
(with no separate `terminate()` call), then removes the session from the
registry, then appends exactly the completion notification to the messages of
the loop — provided `close()` does not raise. -/
theorem c4_single_finalization_close_only
    (sid : String) (trace : List ReadEvent) (aliveAtFinal hasEntry : Bool)
    (hterm : loopExits sid trace = true) :
    (read_gamdl_output sid trace aliveAtFinal false hasEntry).finCalls
      = (if aliveAtFinal then [FinCall.close] else [])
    ∧ (read_gamdl_output sid trace aliveAtFinal false hasEntry).entryRemains = false
    ∧ (read_gamdl_output sid trace aliveAtFinal false hasEntry).emitted
      = (pumpLoop sid trace).1
        ++ [Msg.download_complete ("Download process and cleanup finished.")] := by
  simp only [read_gamdl_output, hterm, if_true]
  cases aliveAtFinal <;> simp [finalize]

/-- Witness for the amended C4 at a concrete EOF run with a live child. -/
theorem c4_witness :
    (read_gamdl_output ("s") [ReadEvent.eof] true false true).finCalls = [FinCall.close]
    ∧ (read_gamdl_output ("s") [ReadEvent.eof] true false true).entryRemains = false
    ∧ (read_gamdl_output ("s") [ReadEvent.eof] true false true).emitted
      = (pumpLoop ("s") [ReadEvent.eof]).1
        ++ [Msg.download_complete ("Download process and cleanup finished.")] :=
  c4_single_finalization_close_only ("s") [ReadEvent.eof] true true rfl

/-- C5: a start request arriving while a live child is registered for the
session is rejected with exactly the duplicate-process error message; the
registry entry is unchanged, no reader thread is started and no child is
closed, whatever the url and whatever the spawn would have produced. -/
theorem c5_duplicate_start_rejected (p : Proc) (url : Option String)
    (sp : SpawnOutcome) (halive : p.alive = true) :
    handle_start_download (some p) url sp
      = ⟨some p,
          [Msg.error_message ("A download process is already running for your session.")],
          false, []⟩ := by
  simp [handle_start_download, entryGuard, halive]

/-- Witness for C5 at a concrete live child. -/
theorem c5_witness :
    handle_start_download (some ⟨7, true⟩) (some ("u")) (SpawnOutcome.ok ⟨8, true⟩)
      = ⟨some ⟨7, true⟩,
          [Msg.error_message ("A download process is already running for your session.")],
          false, []⟩ :=
  c5_duplicate_start_rejected ⟨7, true⟩ (some ("u")) (SpawnOutcome.ok ⟨8, true⟩) rfl

/-- C6: the disconnect termination is graduated: it is empty when the child
is already dead at the outer guard; `sendeof` is attempted only when the
child is alive at its check, likewise the SIGTERM-equivalent and the
SIGKILL-equivalent at theirs; and when the child stays alive through every
check and no step raises, the full sequence sendeof, SIGTERM, SIGKILL runs in
that order. -/
theorem c6_graduated_termination (p : DiscProc) :
    (p.alive0 = false → terminationSteps p = [])
    ∧ (TermStep.sendeof ∈ terminationSteps p → p.alive1 = true)
    ∧ (TermStep.sigterm ∈ terminationSteps p → p.alive2 = true)
    ∧ (TermStep.sigkill ∈ terminationSteps p → p.alive3 = true)
    ∧ (p.alive0 = true → p.alive1 = true → p.alive2 = true → p.alive3 = true →
        p.sendeofRaises = false → p.sigtermRaises = false →
        terminationSteps p = [TermStep.sendeof, TermStep.sigterm, TermStep.sigkill]) := by
  obtain ⟨a0, a1, a2, a3, r1, r2, r3⟩ := p
  refine ⟨?_, ?_, ?_, ?_, ?_⟩ <;>
    cases a0 <;> cases a1 <;> cases a2 <;> cases a3 <;> cases r1 <;> cases r2 <;>
      cases r3 <;> decide

/-- Witness for C6: a child alive at every check and raising nowhere receives
the full escalation sequence. -/
theorem c6_witness :
    terminationSteps ⟨true, true, true, true, false, false, false⟩
      = [TermStep.sendeof, TermStep.sigterm, TermStep.sigkill] :=
  (c6_graduated_termination ⟨true, true, true, true, false, false, false⟩).2.2.2.2
    rfl rfl rfl rfl rfl rfl

/-- C7: when every chunk read from the pty is non-empty (pexpect reports an
empty read as EOF, so data chunks are non-empty), the `gamdl_output` payloads
emitted by the pump are exactly the chunks read, byte for byte and in reading
order, across the whole run including finalization. -/
theorem c7_output_forwarded_verbatim (sid : String) (trace : List ReadEvent)
    (aliveAtFinal closeRaises hasEntry : Bool)
    (h : ∀ s ∈ chunksRead trace, s ≠ "") :
    gamdlPayloads (read_gamdl_output sid trace aliveAtFinal closeRaises hasEntry).emitted
      = chunksRead trace := by
  unfold read_gamdl_output
  split
  · rw [gamdlPayloads_append, pumpLoop_payloads sid trace h, finalize_payloads,
      List.append_nil]
  · exact pumpLoop_payloads sid trace h

/-- Witness for C7 on a concrete trace with two chunks and an interleaved
timeout. -/
theorem c7_witness :
    gamdlPayloads (read_gamdl_output ("s")
        [ReadEvent.data ("ab"), ReadEvent.timeout true, ReadEvent.data ("c"),
          ReadEvent.eof] true false true).emitted
      = [("ab"), ("c")] :=
  c7_output_forwarded_verbatim ("s")
    [ReadEvent.data ("ab"), ReadEvent.timeout true, ReadEvent.data ("c"), ReadEvent.eof]
    true false true (by decide)

/-- C8: when the start guard passes but the spawn raises (either exception
class), the client receives an error message that carries the exception text,
no registry entry remains for the session, and a later start request with a
successful spawn is accepted rather than rejected as a duplicate. -/
theorem c8_spawn_failure_reported_and_recoverable
    (eo : Option Proc) (u u2 e : String) (q : Proc)
    (hguard : entryGuard eo = false) (hu : u ≠ "") (hu2 : u2 ≠ "") :
    (handle_start_download eo (some u) (SpawnOutcome.pexpectErr e)).entry = none
    ∧ (handle_start_download eo (some u) (SpawnOutcome.pexpectErr e)).emitted
      = [Msg.error_message ("Failed to start gamdl: " ++ e ++
          ". Ensure \x27gamdl\x27 is installed and in your system\x27s PATH.")]
    ∧ (handle_start_download eo (some u) (SpawnOutcome.otherErr e)).entry = none
    ∧ (handle_start_download eo (some u) (SpawnOutcome.otherErr e)).emitted
      = [Msg.error_message ("An unexpected error occurred while trying to start gamdl: "
          ++ e)]
    ∧ handle_start_download none (some u2) (SpawnOutcome.ok q)
      = ⟨some q,
          [Msg.info_message ("gamdl process started for " ++ u2 ++ ". Waiting for output...")],
          true, []⟩ := by
  refine ⟨?_, ?_, ?_, ?_, ?_⟩ <;>
    (simp [handle_start_download, hguard, hu, hu2]; try rfl)

/-- Witness for C8 with an empty registry and a concrete failure text. -/
theorem c8_witness :
    (handle_start_download none (some ("u")) (SpawnOutcome.pexpectErr ("boom"))).entry = none
    ∧ (handle_start_download none (some ("u")) (SpawnOutcome.pexpectErr ("boom"))).emitted
      = [Msg.error_message ("Failed to start gamdl: " ++ ("boom") ++
          ". Ensure \x27gamdl\x27 is installed and in your system\x27s PATH.")]
    ∧ (handle_start_download none (some ("u")) (SpawnOutcome.otherErr ("boom"))).entry = none
    ∧ (handle_start_download none (some ("u")) (SpawnOutcome.otherErr ("boom"))).emitted
      = [Msg.error_message ("An unexpected error occurred while trying to start gamdl: "
          ++ ("boom"))]
    ∧ handle_start_download none (some ("v")) (SpawnOutcome.ok ⟨3, true⟩)
      = ⟨some ⟨3, true⟩,
          [Msg.info_message ("gamdl process started for " ++ ("v") ++ ". Waiting for output...")],
          true, []⟩ :=
  c8_spawn_failure_reported_and_recoverable none ("u") ("v") ("boom") ⟨3, true⟩
    rfl (by decide) (by decide)

/-- C9: a start request arriving while the registry holds an entry whose
child is no longer alive is accepted: the new child overwrites the stale
entry, a reader thread is started, only the started-info message is emitted,
and the handler closes no process, so the stale handle is not closed by this
path. -/
theorem c9_dead_entry_overwritten (p q : Proc) (u : String)
    (hdead : p.alive = false) (hu : u ≠ "") :
    handle_start_download (some p) (some u) (SpawnOutcome.ok q)
      = ⟨some q,
          [Msg.info_message ("gamdl process started for " ++ u ++ ". Waiting for output...")],
          true, []⟩ := by
  simp [handle_start_download, entryGuard, hdead, hu]

/-- Witness for C9 at a concrete stale entry. -/
theorem c9_witness :
    handle_start_download (some ⟨4, false⟩) (some ("u")) (SpawnOutcome.ok ⟨5, true⟩)
      = ⟨some ⟨5, true⟩,
          [Msg.info_message ("gamdl process started for " ++ ("u") ++ ". Waiting for output...")],
          true, []⟩ :=
  c9_dead_entry_overwritten ⟨4, false⟩ ⟨5, true⟩ ("u") rfl (by decide)

/-- C10: for every registry content and every child behaviour — already
dead, no child registered, or any combination of liveness answers and raised
exceptions during the termination steps — the disconnect handler leaves no
registry entry for the session, raises nothing, and its first observable
action is the registry pop, before any termination step. -/
theorem c10_disconnect_clears_registry_and_contains_exceptions
    (entry : Option DiscProc) :
    (handle_disconnect entry).entry = none
    ∧ (handle_disconnect entry).raised = false
    ∧ ∃ rest, (handle_disconnect entry).events = DiscEvent.regPop :: rest := by
  cases entry with
  | none => exact ⟨rfl, rfl, [], rfl⟩
  | some p => exact ⟨rfl, rfl, _, rfl⟩

end App
